import Mathlib

/-!
Verification of the tool-augmented reasoning loop of `src/agent.py` and the
path-confined file-read tool of `src/tools/file_ops.py`.

The Python code is shallowly embedded: the persisted conversation history is a
list, the Anthropic inference call is an oracle function passed in as a
parameter, and the file system is a partial map from resolved path components
to file contents.  All definitions are translated from the source; comments
below each definition point at the source lines they embed.
-/

/-- One block of a ToolUseBlock's `input` mapping: argument name to value.
The source accesses it only through `dict.get(key, default)`. -/
abbrev ToolInput := List (String × String)

/-- A `ToolUseBlock` of the Anthropic API as used by `src/agent.py`:
`id` (correlation token), `name` (tool identifier), `input` (argument mapping). -/
structure ToolUseBlock where
  id : String
  name : String
  input : ToolInput
  deriving DecidableEq

/-- A content block returned by the inference call.  `_parse_claude_response`
(src/agent.py lines 247-259) inspects exactly the two variants `text` and
`tool_use`. -/
inductive ContentBlock where
  | text (t : String)
  | tool_use (tu : ToolUseBlock)
  deriving DecidableEq

/-- One entry of the list returned by `_execute_tool_calls`
(src/agent.py lines 110-113): `{"tool_use_id": ..., "content": json.dumps(result)}`.
`build_messages_list` copies the same two fields into the synthetic
`tool_result` content block (lines 168-173), so the same structure models both. -/
structure ToolResultBlock where
  tool_use_id : String
  content : String
  deriving DecidableEq

/-- Content of one message submitted to the inference call: plain text (history
entries and the new user input), raw assistant content blocks (tool-use
continuation), or the synthetic tool-results user message. -/
inductive ApiContent where
  | text (s : String)
  | blocks (bs : List ContentBlock)
  | tool_results (rs : List ToolResultBlock)
  deriving DecidableEq

/-- One `{"role": ..., "content": ...}` entry of the messages list submitted to
the inference call. -/
structure ApiMessage where
  role : String
  content : ApiContent
  deriving DecidableEq

/-- One entry of the persisted history `self.messages`.  `add_message`
(src/agent.py lines 134-137) only ever appends `{"role": r, "content": c}` with
string content (`record`); `load_history` can bring in arbitrary JSON values,
which `build_messages_list` filters out with its
`isinstance(msg, dict) and "role" in msg and "content" in msg` check
(`malformed`). -/
inductive HistEntry where
  | record (role : String) (content : String)
  | malformed
  deriving DecidableEq

/-- The file system seen by the file-read tool: resolved absolute path
components to file text; `none` models any `open`/read failure
(missing file, directory, decode error, permission). -/
abbrev FileSystem := List String → Option String

/-- Result dict produced by a tool implementation, the discriminated shape
`{"success": True, "content": ..., "path": ...}` or `{"error": ...}`
(src/agent.py lines 68-79, src/tools/file_ops.py). -/
inductive ToolResult where
  | success (content : String) (path : String)
  | error (msg : String)
  deriving DecidableEq

/-- JSON string escaping for the payloads that occur here
(backslash and double quote), as `json.dumps` performs. -/
def jsonEscapeChar (c : Char) : String :=
  if c = '\\' then "\\\\" else if c = '\"' then "\\\"" else String.singleton c

/-- A JSON string literal, as `json.dumps` renders a Python `str`. -/
def jsonStringLit (s : String) : String :=
  "\"" ++ String.join (s.toList.map jsonEscapeChar) ++ "\""

/-- `json.dumps` of a tool-result dict (src/agent.py line 112), with the
source's key order: `success`, `content`, `path` for the success dict and the
single key `error` for the error dict. -/
def jsonDumps : ToolResult → String
  | ToolResult.success content path =>
      "\x7b\"success\": true, \"content\": " ++ jsonStringLit content ++
        ", \"path\": " ++ jsonStringLit path ++ "\x7d"
  | ToolResult.error msg => "\x7b\"error\": " ++ jsonStringLit msg ++ "\x7d"

/-- Split a character list on `/` into chunks (possibly empty ones). -/
def splitChars : List Char → List (List Char)
  | [] => [[]]
  | c :: cs =>
      if c = '/' then [] :: splitChars cs
      else
        match splitChars cs with
        | [] => [[c]]
        | w :: ws => (c :: w) :: ws

/-- Split a path string on `/`, dropping empty components, as
`pathlib.PurePosixPath` parsing does. -/
def splitPath (s : String) : List String :=
  ((splitChars s.toList).map (fun w => String.mk w)).filter (fun c => c ≠ "")

/-- `big.startswith(small)` on the underlying character lists
(Python `str.startswith`). -/
def charsStartWith : List Char → List Char → Bool
  | [], _ => true
  | _ :: _, [] => false
  | p :: ps, c :: cs => p == c && charsStartWith ps cs

/-- Python `s.startswith(p)`. -/
def strStartsWith (s p : String) : Bool :=
  charsStartWith p.toList s.toList

/-- Normalize path components against an accumulated absolute path:
`.` is dropped, `..` pops the last component (at the root it stays at the
root), anything else is appended.  This is what `Path.resolve()` computes in
the absence of symlinks. -/
def resolveComponents : List String → List String → List String
  | acc, [] => acc
  | acc, c :: cs =>
      if c = "." then resolveComponents acc cs
      else if c = ".." then resolveComponents acc.dropLast cs
      else resolveComponents (acc ++ [c]) cs

/-- `(working_directory / path).resolve()` (src/agent.py line 71): if `path` is
absolute it replaces the working directory (pathlib `/` semantics), otherwise
it is joined onto it; the result is then normalized. -/
def resolvePath (root : List String) (path : String) : List String :=
  if strStartsWith path "/" then resolveComponents [] (splitPath path)
  else resolveComponents root (splitPath path)

/-- `str(p)` of an absolute `Path` with the given components. -/
def pathStr (p : List String) : String :=
  "/" ++ String.intercalate "/" p

/-- `p` is the root itself or lies below it (component-wise). -/
def isUnderRoot : List String → List String → Bool
  | [], _ => true
  | _ :: _, [] => false
  | r :: rs, c :: cs => r == c && isUnderRoot rs cs

/-- `_read_file` (src/agent.py lines 68-79), identical to `read_file` in
src/tools/file_ops.py: resolve the path against the working directory, refuse
when `str(file_path).startswith(str(self.working_directory))` fails, otherwise
read; any read failure becomes `{"error": "Could not read file: ..."}` (the OS
exception detail is abstracted to the path text). -/
def read_file (working_directory : List String) (fs : FileSystem)
    (path : String) : ToolResult :=
  let file_path := resolvePath working_directory path
  if !strStartsWith (pathStr file_path) (pathStr working_directory) then
    ToolResult.error "Access denied: path outside working directory"
  else
    match fs file_path with
    | some content => ToolResult.success content (pathStr file_path)
    | none => ToolResult.error ("Could not read file: " ++ pathStr file_path)

/-- The argument extraction `tool_use.input.get(key, default)` used at
src/agent.py lines 88-97. -/
def inputGet (input : ToolInput) (key dflt : String) : String :=
  match input.lookup key with
  | some v => v
  | none => dflt

/-- The concrete call the `if/elif` dispatch of `_execute_tool_calls`
(src/agent.py lines 88-99) selects, with the argument defaults appearing there. -/
inductive ToolCall where
  | read_file_call (path : String)
  | write_file_call (path : String) (content : String)
  | list_files_call (path : String)
  | search_files_call (pattern : String) (path : String)
  | unknown_tool (name : String)
  deriving DecidableEq

/-- The dispatch of src/agent.py lines 88-99: select the tool by name and
extract its declared arguments with `input.get(key, default)`; the defaults are
`""` for `read_file.path`, `write_file.path`, `write_file.content` and
`search_files.pattern`, and `"."` for `list_files.path` and
`search_files.path`; an unrecognized name falls through to the
`Unknown tool` result. -/
def toolDispatch (tool_use : ToolUseBlock) : ToolCall :=
  if tool_use.name = "read_file" then
    ToolCall.read_file_call (inputGet tool_use.input "path" "")
  else if tool_use.name = "write_file" then
    ToolCall.write_file_call (inputGet tool_use.input "path" "")
      (inputGet tool_use.input "content" "")
  else if tool_use.name = "list_files" then
    ToolCall.list_files_call (inputGet tool_use.input "path" ".")
  else if tool_use.name = "search_files" then
    ToolCall.search_files_call (inputGet tool_use.input "pattern" "")
      (inputGet tool_use.input "path" ".")
  else ToolCall.unknown_tool tool_use.name

/-- Run one dispatched call.  `read_file` is the implemented tool; the methods
`_write_file`, `_list_files` and `_search_files` do not exist anywhere in the
repository, so in the source those calls raise `AttributeError`, which the
`except` at src/agent.py lines 100-101 converts to
`{"error": f"Tool execution failed: ..."}` (the Python exception detail is
abbreviated here); an unknown name yields `{"error": f"Unknown tool: ..."}`
(line 99). -/
def runToolCall (working_directory : List String) (fs : FileSystem) :
    ToolCall → ToolResult
  | ToolCall.read_file_call path => read_file working_directory fs path
  | ToolCall.write_file_call _ _ =>
      ToolResult.error "Tool execution failed: missing attribute _write_file"
  | ToolCall.list_files_call _ =>
      ToolResult.error "Tool execution failed: missing attribute _list_files"
  | ToolCall.search_files_call _ _ =>
      ToolResult.error "Tool execution failed: missing attribute _search_files"
  | ToolCall.unknown_tool name => ToolResult.error ("Unknown tool: " ++ name)

/-- `_execute_tool_calls` (src/agent.py lines 82-115): for each ToolUseBlock in
order, dispatch it, run it, and record
`{"tool_use_id": tool_use.id, "content": json.dumps(result)}`; one entry per
request, failures included. -/
def _execute_tool_calls (working_directory : List String) (fs : FileSystem)
    (tool_uses : List ToolUseBlock) : List ToolResultBlock :=
  tool_uses.map (fun tool_use =>
    ⟨tool_use.id, jsonDumps (runToolCall working_directory fs (toolDispatch tool_use))⟩)

/-- The `isinstance(msg, dict) and "role" in msg and "content" in msg` filter
plus the `{"role": ..., "content": ...}` projection of `build_messages_list`
(src/agent.py lines 149-153). -/
def cleanEntry : HistEntry → Option ApiMessage
  | HistEntry.record role content => some ⟨role, ApiContent.text content⟩
  | HistEntry.malformed => none

/-- `if user_input: messages.append({"role": "user", "content": user_input})`
(src/agent.py lines 155-157); `None` and the empty string are both falsy. -/
def userAppend : Option String → List ApiMessage
  | none => []
  | some s => if s = "" then [] else [⟨"user", ApiContent.text s⟩]

/-- `if assistant_content: messages.append({"role": "assistant", ...})`
(src/agent.py lines 159-161); an empty block list is falsy. -/
def assistantAppend : Option (List ContentBlock) → List ApiMessage
  | none => []
  | some bs => if bs.isEmpty then [] else [⟨"assistant", ApiContent.blocks bs⟩]

/-- `if tool_results: messages.append({...})` (src/agent.py lines 163-175):
a single synthetic user message wrapping every tool result as a
`tool_result` content block with the same `tool_use_id` and `content`;
an empty result list is falsy. -/
def resultsAppend : Option (List ToolResultBlock) → List ApiMessage
  | none => []
  | some rs =>
      if rs.isEmpty then [] else [⟨"user", ApiContent.tool_results rs⟩]

/-- `build_messages_list` (src/agent.py lines 139-177):
`start_idx = max(0, len(self.messages) - max_history)` (natural subtraction),
the cleaned slice `self.messages[start_idx:]`, then the three optional
appends in source order: new user input, assistant content, tool results.
The source's default for `max_history` is 20; callers here pass it explicitly. -/
def build_messages_list (history : List HistEntry) (user_input : Option String)
    (tool_results : Option (List ToolResultBlock))
    (assistant_content : Option (List ContentBlock))
    (max_history : Nat) : List ApiMessage :=
  ((history.drop (history.length - max_history)).filterMap cleanEntry)
    ++ userAppend user_input
    ++ assistantAppend assistant_content
    ++ resultsAppend tool_results

/-- `_parse_claude_response` (src/agent.py lines 247-259): split the content
blocks, in order, into the text payloads and the tool-use blocks. -/
def _parse_claude_response (content_blocks : List ContentBlock) :
    List String × List ToolUseBlock :=
  (content_blocks.filterMap (fun b =>
      match b with
      | ContentBlock.text t => some t
      | ContentBlock.tool_use _ => none),
   content_blocks.filterMap (fun b =>
      match b with
      | ContentBlock.text _ => none
      | ContentBlock.tool_use tu => some tu))

/-- Outcome of one `_call_claude` round-trip (src/agent.py lines 15-29):
either the reply's content blocks or a single error-message string. -/
inductive InferResponse where
  | ok (content_blocks : List ContentBlock)
  | err (msg : String)
  deriving DecidableEq

/-- The fixed `safety_limit` of `react_loop` (src/agent.py line 190). -/
def safety_limit : Nat := 20

/-- The fixed fallback answer of src/agent.py line 226. -/
def fallback_response : String := "I couldn\x27t generate a response."

/-- The advisory suffix of src/agent.py line 228. -/
def limit_note : String :=
  "\n\n(Note: I reached my processing limit. You may want to break this down into smaller steps.)"

/-- `react_loop` (src/agent.py lines 179-234).  The inference collaborator is
the oracle `infer`, mapping the submitted window to a reply; the pair returned
is (persisted history after the turn, value returned by the Python function),
where `none` models Python returning `None`.

The block at lines 224-234 ("Prepare final response" through
`return final_response`) is indented *inside* the `while` body.  Consequently
every iteration of the loop either returns (the error path at lines 199-202 and
the tool path ending at line 234) or breaks (line 213, after which control
reaches the end of the function and Python returns `None` without appending
anything to history).  The `while` can therefore never start a second
iteration, and the embedding unfolds the single iteration that can run:
`iterations` is 1 at line 227, so `iterations >= safety_limit` is `False`
there. -/
def react_loop (working_directory : List String) (fs : FileSystem)
    (infer : List ApiMessage → InferResponse) (history : List HistEntry)
    (user_input : String) : List HistEntry × Option String :=
  -- self.add_message("user", user_input)
  let history := history ++ [HistEntry.record "user" user_input]
  -- messages = self.build_messages_list(user_input=user_input)
  let messages := build_messages_list history (some user_input) none none 20
  let last_complete_response : Option String := none
  let iterations : Nat := 0
  -- while iterations < safety_limit:  (0 < 20, so the single iteration runs)
  if iterations < safety_limit then
    let iterations := iterations + 1
    match infer messages with
    | InferResponse.err e =>
        let error_msg := "Error: " ++ e
        (history ++ [HistEntry.record "assistant" error_msg], some error_msg)
    | InferResponse.ok content_blocks =>
        let parsed := _parse_claude_response content_blocks
        let text_responses := parsed.1
        let tool_uses := parsed.2
        -- if text_responses: last_complete_response = "\n".join(text_responses)
        let last_complete_response :=
          if text_responses.isEmpty then last_complete_response
          else some (String.intercalate "\n" text_responses)
        -- if not tool_uses: break  -- skips lines 224-234, function returns None
        if tool_uses.isEmpty then (history, none)
        else
          let tool_results := _execute_tool_calls working_directory fs tool_uses
          -- messages = self.build_messages_list(assistant_content=..., tool_results=...)
          let _messages :=
            build_messages_list history none (some tool_results)
              (some content_blocks) 20
          -- lines 224-234, still inside the while body: return after this
          -- first tool cycle, so no second inference call ever happens
          let final_response :=
            match last_complete_response with
            | none => fallback_response
            | some last =>
                if safety_limit ≤ iterations then last ++ limit_note else last
          (history ++ [HistEntry.record "assistant" final_response],
           some final_response)
  else (history, none)

/-- `process_message` (src/agent.py lines 236-245): delegate to `react_loop`;
the `except` branch only fires on a Python exception, which the total
embedding cannot raise, so the delegation is exact. -/
def process_message (working_directory : List String) (fs : FileSystem)
    (infer : List ApiMessage → InferResponse) (history : List HistEntry)
    (user_input : String) : List HistEntry × Option String :=
  react_loop working_directory fs infer history user_input

/-! ## Helper lemmas -/

/-- A tool-use block returned by `_parse_claude_response` comes from the
inspected content blocks. -/
theorem mem_parse_tool_uses {content_blocks : List ContentBlock}
    {tu : ToolUseBlock} (h : tu ∈ (_parse_claude_response content_blocks).2) :
    ContentBlock.tool_use tu ∈ content_blocks := by
  simp only [_parse_claude_response, List.mem_filterMap] at h
  obtain ⟨b, hb, hf⟩ := h
  cases b with
  | text t => simp at hf
  | tool_use x =>
      simp only [Option.some.injEq] at hf
      exact hf ▸ hb

/-! ## Claims -/

/-- C1 (code bug): with an inference collaborator that returns a ToolUseBlock
on every call, `react_loop` does not perform 20 round-trips: the mis-indented
final-response block (src/agent.py lines 224-234) sits inside the `while`
body, so the turn ends after the very first tool cycle, with the fallback
answer (no model text was produced) and without the LIMIT_REACHED advisory
note. -/
theorem react_loop_always_tools_single_round :
    react_loop ["ws"] (fun _ => none)
        (fun _ => InferResponse.ok
          [ContentBlock.tool_use ⟨"toolu_1", "read_file", [("path", "a.txt")]⟩])
        [] "hi"
      = ([HistEntry.record "user" "hi",
          HistEntry.record "assistant" fallback_response],
         some fallback_response)
    ∧ fallback_response ≠ fallback_response ++ limit_note :=
  ⟨by rfl, by decide⟩

/-- C3 (code bug): a turn whose first inference reply contains only text takes
the `break` at src/agent.py line 213, which skips the mis-indented
persist-and-return block; the turn appends no assistant message to history at
all (only the user message) and returns Python `None`. -/
theorem process_message_no_tools_appends_no_assistant :
    process_message ["ws"] (fun _ => none)
        (fun _ => InferResponse.ok [ContentBlock.text "hello"]) [] "hi"
      = ([HistEntry.record "user" "hi"], none)
    ∧ ((process_message ["ws"] (fun _ => none)
          (fun _ => InferResponse.ok [ContentBlock.text "hello"]) [] "hi").1.countP
        (fun e =>
          match e with
          | HistEntry.record role _ => role == "assistant"
          | HistEntry.malformed => false)) = 0 :=
  ⟨by rfl, by decide⟩

/-- C5 (code bug): the iteration limit can never be reached, because the
mis-indented block at src/agent.py lines 224-234 makes every tool cycle return
at `iterations = 1`; a turn in which the model was still requesting tools ends
after one round-trip with the plain best-answer-so-far and no advisory note. -/
theorem react_loop_tool_turn_ends_without_limit_note :
    react_loop ["ws"] (fun _ => none)
        (fun _ => InferResponse.ok [ContentBlock.text "working on it",
          ContentBlock.tool_use ⟨"toolu_9", "read_file", [("path", "b.txt")]⟩])
        [] "go"
      = ([HistEntry.record "user" "go",
          HistEntry.record "assistant" "working on it"],
         some "working on it")
    ∧ "working on it" ≠ "working on it" ++ limit_note :=
  ⟨by rfl, by decide⟩

/-- C6 (code bug): when an inference reply contains no ToolUseBlocks, the
`break` at src/agent.py line 213 leaves the `while`, control falls off the end
of `react_loop`, and the turn's answer is Python `None` — not the remembered
newline-joined model text. -/
theorem react_loop_text_reply_returns_none :
    react_loop ["ws"] (fun _ => none)
        (fun _ => InferResponse.ok [ContentBlock.text "a", ContentBlock.text "b"])
        [] "question"
      = ([HistEntry.record "user" "question"], none)
    ∧ (none : Option String) ≠ some (String.intercalate "\n" ["a", "b"]) :=
  ⟨by rfl, by decide⟩

/-- C2 (counterexample): the path `"../ws2/secret.txt"` resolves outside the
root `/ws`, yet its string form `/ws2/secret.txt` starts with the string
`/ws`, so the file-read tool does not return the access-denied error — it
reads the file and returns its contents. -/
theorem read_file_escape_counterexample :
    isUnderRoot ["ws"] (resolvePath ["ws"] "../ws2/secret.txt") = false
    ∧ read_file ["ws"]
        (fun p => if p = ["ws2", "secret.txt"] then some "top secret" else none)
        "../ws2/secret.txt"
      = ToolResult.success "top secret" "/ws2/secret.txt"
    ∧ ToolResult.success "top secret" "/ws2/secret.txt"
        ≠ ToolResult.error "Access denied: path outside working directory" :=
  ⟨by decide, by decide, by decide⟩

/-- C2 (amended): for every path argument whose resolved absolute path's
string form does not start with the root's string form, the file-read tool
returns the access-denied error and performs no read — the result is the same
for every file system. -/
theorem read_file_denied_when_not_prefixed (working_directory : List String)
    (path : String)
    (h : strStartsWith (pathStr (resolvePath working_directory path))
          (pathStr working_directory) = false) :
    ∀ fs : FileSystem, read_file working_directory fs path
      = ToolResult.error "Access denied: path outside working directory" := by
  intro fs
  unfold read_file
  simp [h]

/-- Instance of `read_file_denied_when_not_prefixed`: `"../../etc/passwd"`
resolves to `/etc/passwd`, which is not prefixed by `/ws`, so the read is
denied even on a file system where every file exists. -/
theorem read_file_denied_when_not_prefixed_witness :
    read_file ["ws"] (fun _ => some "leak") "../../etc/passwd"
      = ToolResult.error "Access denied: path outside working directory" :=
  read_file_denied_when_not_prefixed ["ws"] "../../etc/passwd" (by decide)
    (fun _ => some "leak")

/-- C4: every tool-result block in the window built for a tool-continuation
call carries the id of some ToolUseBlock of the immediately preceding
assistant content blocks — the blocks from which `_execute_tool_calls`
produced the results. -/
theorem tool_result_ids_correlate
    (history : List HistEntry) (user_input : Option String)
    (working_directory : List String) (fs : FileSystem)
    (content_blocks : List ContentBlock) (max_history : Nat) :
    ∀ m ∈ build_messages_list history user_input
        (some (_execute_tool_calls working_directory fs
          (_parse_claude_response content_blocks).2))
        (some content_blocks) max_history,
      ∀ rs, m.content = ApiContent.tool_results rs →
        ∀ r ∈ rs, ∃ tu : ToolUseBlock,
          ContentBlock.tool_use tu ∈ content_blocks ∧ r.tool_use_id = tu.id := by
  intro m hm rs hrs r hr
  simp only [build_messages_list, List.append_assoc, List.mem_append] at hm
  rcases hm with hm | hm | hm | hm
  · obtain ⟨e, _, hc⟩ := List.mem_filterMap.mp hm
    cases e with
    | record role c =>
        simp only [cleanEntry, Option.some.injEq] at hc
        rw [← hc] at hrs
        simp at hrs
    | malformed => simp [cleanEntry] at hc
  · cases user_input with
    | none => simp [userAppend] at hm
    | some s =>
        by_cases hs : s = ""
        · simp [userAppend, hs] at hm
        · simp [userAppend, hs] at hm
          rw [hm] at hrs
          simp at hrs
  · by_cases hb : content_blocks.isEmpty
    · simp [assistantAppend, hb] at hm
    · simp [assistantAppend, hb] at hm
      rw [hm] at hrs
      simp at hrs
  · by_cases he : (_execute_tool_calls working_directory fs
        (_parse_claude_response content_blocks).2).isEmpty
    · simp [resultsAppend, he] at hm
    · simp [resultsAppend, he] at hm
      rw [hm] at hrs
      simp only [ApiContent.tool_results.injEq] at hrs
      rw [← hrs] at hr
      simp only [_execute_tool_calls, List.mem_map] at hr
      obtain ⟨tu, htu, heq⟩ := hr
      exact ⟨tu, mem_parse_tool_uses htu, by rw [← heq]⟩

/-- Instance of `tool_result_ids_correlate` at a concrete tool-continuation
window: the single tool result correlates back to the requesting block. -/
theorem tool_result_ids_correlate_witness :
    ∃ tu : ToolUseBlock,
      ContentBlock.tool_use tu
          ∈ [ContentBlock.tool_use ⟨"id1", "read_file", [("path", "c.txt")]⟩]
        ∧ ("id1" : String) = tu.id :=
  tool_result_ids_correlate [] none ["ws"] (fun _ => none)
    [ContentBlock.tool_use ⟨"id1", "read_file", [("path", "c.txt")]⟩] 20
    ⟨"user", ApiContent.tool_results (_execute_tool_calls ["ws"] (fun _ => none)
      (_parse_claude_response
        [ContentBlock.tool_use ⟨"id1", "read_file", [("path", "c.txt")]⟩]).2)⟩
    (by decide)
    (_execute_tool_calls ["ws"] (fun _ => none)
      (_parse_claude_response
        [ContentBlock.tool_use ⟨"id1", "read_file", [("path", "c.txt")]⟩]).2)
    rfl
    ⟨"id1", jsonDumps (ToolResult.error "Could not read file: /ws/c.txt")⟩
    (by decide)

/-- C7: the window built by `build_messages_list` is the cleaned slice of the
last `max_history` history entries followed by at most three appended items
(new user message, assistant content, synthetic tool-results message); its
total size is bounded by `max_history + 3` however long the history is. -/
theorem window_bound (history : List HistEntry) (user_input : Option String)
    (tool_results : Option (List ToolResultBlock))
    (assistant_content : Option (List ContentBlock)) (max_history : Nat) :
    ∃ extras : List ApiMessage,
      build_messages_list history user_input tool_results assistant_content
          max_history
        = (history.drop (history.length - max_history)).filterMap cleanEntry
            ++ extras
      ∧ ((history.drop (history.length - max_history)).filterMap
          cleanEntry).length ≤ max_history
      ∧ extras.length ≤ 3
      ∧ (build_messages_list history user_input tool_results assistant_content
          max_history).length ≤ max_history + 3 := by
  have hslice : ((history.drop (history.length - max_history)).filterMap
      cleanEntry).length ≤ max_history := by
    have h1 := List.length_filterMap_le cleanEntry
      (history.drop (history.length - max_history))
    have h2 : (history.drop (history.length - max_history)).length
        = history.length - (history.length - max_history) :=
      List.length_drop _ _
    omega
  have hu : (userAppend user_input).length ≤ 1 := by
    cases user_input with
    | none => simp [userAppend]
    | some s => by_cases hs : s = "" <;> simp [userAppend, hs]
  have ha : (assistantAppend assistant_content).length ≤ 1 := by
    cases assistant_content with
    | none => simp [assistantAppend]
    | some bs => by_cases hb : bs.isEmpty <;> simp [assistantAppend, hb]
  have hr : (resultsAppend tool_results).length ≤ 1 := by
    cases tool_results with
    | none => simp [resultsAppend]
    | some rs => by_cases hre : rs.isEmpty <;> simp [resultsAppend, hre]
  refine ⟨userAppend user_input ++ assistantAppend assistant_content
    ++ resultsAppend tool_results, by simp [build_messages_list], hslice, ?_, ?_⟩
  · simp only [List.length_append]
    omega
  · simp only [build_messages_list, List.length_append]
    omega

/-- C8: a ToolUseBlock whose name is not in the fixed registry yields the
recorded result `json.dumps({"error": "Unknown tool: <name>"})` for that block,
and the surrounding batch is still processed: the results of the preceding and
following requests are exactly those of the sub-batches. -/
theorem unknown_tool_yields_error_and_continues
    (working_directory : List String) (fs : FileSystem)
    (pre post : List ToolUseBlock) (b : ToolUseBlock)
    (h : b.name ∉ (["read_file", "write_file", "list_files",
        "search_files"] : List String)) :
    _execute_tool_calls working_directory fs (pre ++ b :: post)
      = _execute_tool_calls working_directory fs pre
        ++ ⟨b.id, jsonDumps (ToolResult.error ("Unknown tool: " ++ b.name))⟩
          :: _execute_tool_calls working_directory fs post := by
  simp only [List.mem_cons, List.mem_singleton, not_or] at h
  obtain ⟨h1, h2, h3, h4⟩ := h
  simp [_execute_tool_calls, toolDispatch, runToolCall, h1, h2, h3, h4]

/-- Instance of `unknown_tool_yields_error_and_continues`: the name
`delete_everything` is not registered; it yields the unknown-tool error and
the following `read_file` request is still executed. -/
theorem unknown_tool_yields_error_and_continues_witness :
    _execute_tool_calls ["ws"] (fun _ => none)
        ([] ++ (⟨"t9", "delete_everything", []⟩ : ToolUseBlock)
          :: [⟨"t10", "read_file", [("path", "a.txt")]⟩])
      = _execute_tool_calls ["ws"] (fun _ => none) []
        ++ ⟨"t9", jsonDumps (ToolResult.error
              ("Unknown tool: " ++ "delete_everything"))⟩
          :: _execute_tool_calls ["ws"] (fun _ => none)
            [⟨"t10", "read_file", [("path", "a.txt")]⟩] :=
  unknown_tool_yields_error_and_continues ["ws"] (fun _ => none) []
    [⟨"t10", "read_file", [("path", "a.txt")]⟩]
    ⟨"t9", "delete_everything", []⟩ (by decide)

/-- C9 (counterexample): a `list_files` request with no `path` argument is
dispatched with the default `"."`, not the empty string. -/
theorem default_args_counterexample :
    toolDispatch ⟨"t1", "list_files", []⟩ = ToolCall.list_files_call "."
    ∧ ToolCall.list_files_call "." ≠ ToolCall.list_files_call "" :=
  ⟨by decide, by decide⟩

/-- C9 (amended): arguments absent from a ToolUseBlock's input mapping are
substituted with the fixed per-argument defaults of src/agent.py lines 88-97 —
the empty string for `read_file.path`, `write_file.path`, `write_file.content`
and `search_files.pattern`, and `"."` for `list_files.path` and
`search_files.path` — and dispatch never fails because an argument is missing:
every request in a batch produces exactly one recorded result. -/
theorem default_args_amended (b : ToolUseBlock)
    (hpath : b.input.lookup "path" = none)
    (hcontent : b.input.lookup "content" = none)
    (hpattern : b.input.lookup "pattern" = none) :
    toolDispatch b
      = (if b.name = "read_file" then ToolCall.read_file_call ""
         else if b.name = "write_file" then ToolCall.write_file_call "" ""
         else if b.name = "list_files" then ToolCall.list_files_call "."
         else if b.name = "search_files" then ToolCall.search_files_call "" "."
         else ToolCall.unknown_tool b.name)
    ∧ ∀ (wd : List String) (fs : FileSystem) (tool_uses : List ToolUseBlock),
        (_execute_tool_calls wd fs tool_uses).length = tool_uses.length := by
  constructor
  · simp [toolDispatch, inputGet, hpath, hcontent, hpattern]
  · intro wd fs tool_uses
    simp [_execute_tool_calls]

/-- Instance of `default_args_amended`: a `search_files` request with an empty
input mapping dispatches with pattern `""` and path `"."`. -/
theorem default_args_amended_witness :
    toolDispatch ⟨"t2", "search_files", []⟩
      = (if ("search_files" : String) = "read_file" then
            ToolCall.read_file_call ""
         else if ("search_files" : String) = "write_file" then
            ToolCall.write_file_call "" ""
         else if ("search_files" : String) = "list_files" then
            ToolCall.list_files_call "."
         else if ("search_files" : String) = "search_files" then
            ToolCall.search_files_call "" "."
         else ToolCall.unknown_tool "search_files") :=
  (default_args_amended ⟨"t2", "search_files", []⟩ rfl rfl rfl).1

/-- C10: `react_loop` appends the user message to history and then also passes
the same `user_input` to `build_messages_list`, so whenever the post-append
history fits in the window the first inference window contains the current
user message at least twice; moreover `react_loop` consults the oracle only at
that window, so this window is exactly what the first (and only) inference
call receives. -/
theorem first_window_contains_user_message_twice
    (history : List HistEntry) (user_input : String)
    (hne : user_input ≠ "") (hfit : history.length + 1 ≤ 20) :
    2 ≤ (build_messages_list (history ++ [HistEntry.record "user" user_input])
          (some user_input) none none 20).countP
          (fun m => decide (m = ⟨"user", ApiContent.text user_input⟩))
    ∧ ∀ (working_directory : List String) (fs : FileSystem)
        (infer infer2 : List ApiMessage → InferResponse),
        infer (build_messages_list
            (history ++ [HistEntry.record "user" user_input])
            (some user_input) none none 20)
          = infer2 (build_messages_list
              (history ++ [HistEntry.record "user" user_input])
              (some user_input) none none 20) →
        react_loop working_directory fs infer history user_input
          = react_loop working_directory fs infer2 history user_input := by
  constructor
  · have hidx : (history ++ [HistEntry.record "user" user_input]).length - 20
        = 0 := by
      simp only [List.length_append, List.length_singleton]
      omega
    simp only [build_messages_list, hidx, List.drop_zero, userAppend,
      assistantAppend, resultsAppend, hne, if_neg, List.filterMap_append,
      List.countP_append]
    simp [cleanEntry, List.countP_cons, hne]
  · intro wd fs infer infer2 hagree
    simp only [react_loop]
    rw [hagree]

/-- Instance of `first_window_contains_user_message_twice`: with one prior
history entry and the new input `"hi"`, the first window holds the message
`{"role": "user", "content": "hi"}` twice. -/
theorem first_window_contains_user_message_twice_witness :
    2 ≤ (build_messages_list
          ([HistEntry.record "user" "old"] ++ [HistEntry.record "user" "hi"])
          (some "hi") none none 20).countP
          (fun m => decide (m = ⟨"user", ApiContent.text "hi"⟩)) :=
  (first_window_contains_user_message_twice [HistEntry.record "user" "old"]
    "hi" (by decide) (by decide)).1
